import Mathlib

/-!
Verification development for the Akai APC40 mixer control-device driver
(zynthian_ctrldev_akai_apc40_mixer.py).

The driver is embedded shallowly: the persistent driver state together with
the observable state of its collaborators (mixer, layer list, audio recorder,
chain selection, zynpad sequencer) form one Lean record `State`; every public
operation of the driver becomes a pure function from `State` (and the raw
event word) to a new `State` plus the list of outgoing MIDI messages it sends
through lib_zyncore.  Python locals that may be referenced before assignment
(panPosition in refresh) are modelled as `Option` values, and an exception
(UnboundLocalError, IndexError) is modelled by an `ok := false` flag carrying
the messages already sent at the point the exception is raised.  Machine
integers are Nat/Int; the float arithmetic of convert_range is modelled over
the rationals, which is exact for the integer operand families the claims
evaluate it at.
-/

namespace APC40

/-! ## Module-level constants (lines 40-74 of the source) -/

def COLOUR_OFF : Int := 0
def COLOUR_GREEN : Int := 1
def COLOUR_GREEN_BLINK : Int := 2
def COLOUR_RED : Int := 3
def COLOUR_RED_BLINK : Int := 4
def COLOUR_ORANGE : Int := 5
def COLOUR_ORANGE_BLINK : Int := 6

/-- Byte sequence of the mode-request sysex, CTRL_MODE_REQ
(hex F0 47 00 73 60 00 04 42 00 00 00 F7). -/
def CTRL_MODE_REQ : List Nat :=
  [0xF0, 0x47, 0x00, 0x73, 0x60, 0x00, 0x04, 0x42, 0x00, 0x00, 0x00, 0xF7]

def PAD_NOTE_MIN : Nat := 0x35
def PAD_NOTE_MAX : Nat := 0x39
def PAD_WIDTH : Nat := 8
def PAD_HEIGHT : Nat := 5

def bank_left_note : Nat := 89
def bank_right_note : Nat := 90
def mute_note : Nat := 50
def solo_note : Nat := 49
def rec_note : Nat := 51
def panknobs_ccnum : List Nat := [48, 49, 50, 51, 52, 53, 54, 55]
def ccknobs_ccnum : List Nat := [16, 17, 18, 19, 20, 21, 22, 23]
def fader_ccnum : Nat := 7
def master_select_nnum : Nat := 80
def master_chnum : Nat := 0
def master_ccnum : Nat := 14
def pan_button : Nat := 87

/-! ## Outgoing MIDI messages

Each lib_zyncore send call becomes one constructor: dev_send_note_on,
dev_send_ccontrol_change, dev_send_midi_event (sysex). -/

inductive Msg where
  | noteOn (idev : Nat) (channel : Nat) (note : Nat) (vel : Int)
  | cc (idev : Nat) (channel : Nat) (num : Nat) (val : Int)
  | sysex (idev : Nat) (bytes : List Nat)
deriving DecidableEq, Repr

/-- A root layer as seen by the driver: an identity (used for the equality
test against curlayer) and its midi_chan attribute. -/
structure Layer where
  uid : Nat
  midi_chan : Nat
deriving DecidableEq, Repr

/-- The driver state together with the observable collaborator state.
midimix_bank is the only persistent state owned by the driver itself;
everything else belongs to the mixer / layer / recorder / selection /
zynpad collaborators, threaded explicitly. -/
structure State where
  /-- Device index used for all outgoing sends (self.idev). -/
  idev : Nat
  /-- self.midimix_bank, the bank selector. -/
  midimix_bank : Nat
  /-- Class attribute rec_mode, read by refresh and the rec-note handler. -/
  rec_mode : Nat
  /-- Class attribute pan_selected, read by refresh. -/
  pan_selected : Bool
  /-- zynmixer.get_mute by strip index. -/
  mute : Nat → Bool
  /-- zynmixer.get_solo by strip index. -/
  solo : Nat → Bool
  /-- zynmixer.get_level by strip index. -/
  level : Nat → ℚ
  /-- zynmixer.get_balance by strip index. -/
  balance : Nat → ℚ
  /-- len(zynmixer.zctrls), the live strip count. -/
  zctrls_len : Nat
  /-- screens[layer].get_root_layers(). -/
  layers : List Layer
  /-- zyngui.curlayer (None when no current layer). -/
  curlayer : Option Layer
  /-- audio_recorder.is_armed by midi channel. -/
  armed : Nat → Bool
  /-- Chain selected through zyngui_mixer.select_chain_by_index. -/
  selected : Option Nat
  /-- Whether (main_mixbus_strip, solo) sits in pending_refresh_queue. -/
  pendingMainSolo : Bool
  /-- Level zctrl of main_mixbus_strip. -/
  main_level : ℚ
  /-- zynpad.bank. -/
  zynpadBank : Nat
  /-- zynpad.get_pad_from_xy (negative result means no pad). -/
  getPadFromXY : Nat → Int → Int
  /-- zynseq.libseq play state per (bank, pad), toggled by togglePlayState. -/
  playing : Nat → Int → Bool
  /-- zynpad.get_xy_from_pad. -/
  getXYFromPad : Nat → Nat × Nat

/-! ## Range converter (convert_range, lines 106-110)

Python computes in floats and applies int(), which truncates toward zero.
The rational model below is exact whenever the float computation is exact,
in particular for all the integer operand families used in the claims. -/

/-- Truncation toward zero, the behaviour of Python int() on a float. -/
def truncToZero (q : ℚ) : ℤ :=
  if 0 ≤ q then ⌊q⌋ else ⌈q⌉

/-- convert_range(value, old_min, old_max, new_min, new_max). -/
def convert_range (value old_min old_max new_min new_max : ℚ) : ℤ :=
  truncToZero ((value - old_min) * (new_max - new_min) / (old_max - old_min) + new_min)

/-! ## Event decoding (decode_channel lines 156-162, midi_event lines 164-171, 229-231) -/

/-- Line 160-162: channel = ((event >> 16) & 0xFF) & 0x0F. -/
def decode_channel (ev : Nat) : Nat :=
  ((ev >>> 16) &&& 0xFF) &&& 0x0F

/-- Line 165: evtype = (ev & 0xF00000) >> 20. -/
def decode_evtype (ev : Nat) : Nat :=
  (ev &&& 0xF00000) >>> 20

/-- Line 166: idev = (ev & 0xFF000000) >> 24. -/
def decode_idev (ev : Nat) : Nat :=
  (ev &&& 0xFF000000) >>> 24

/-- Line 170: note = (ev >> 8) & 0x7F. -/
def decode_note (ev : Nat) : Nat :=
  (ev >>> 8) &&& 0x7F

/-- Lines 171 and 231: val = ev & 0x7F. -/
def decode_val (ev : Nat) : Nat :=
  ev &&& 0x7F

/-- Line 230: ccnum = (ev & 0x7F00) >> 8. -/
def decode_ccnum (ev : Nat) : Nat :=
  (ev &&& 0x7F00) >>> 8

/-- Packs (deviceIndex, typeNibble, channel, number, value) into the 32-bit
event word layout the decoder expects. -/
def mkWord (dv t ch num v : Nat) : Nat :=
  dv * 2 ^ 24 + t * 2 ^ 20 + ch * 2 ^ 16 + num * 2 ^ 8 + v

/-! ## light_off, setup helpers, init, end (lines 84-104, 250-254) -/

/-- light_off (lines 251-254): for note in range(128), for channel in
range(8), send NoteOn velocity 0. -/
def light_off (s : State) : List Msg :=
  (List.range 128).flatMap fun note =>
    (List.range 8).map fun channel => Msg.noteOn s.idev channel note 0

/-- setup_sysex (lines 84-86). -/
def setup_sysex (s : State) : List Msg :=
  [Msg.sysex s.idev CTRL_MODE_REQ]

/-- setup_pan_led_rings (lines 88-90). -/
def setup_pan_led_rings (s : State) : List Msg :=
  panknobs_ccnum.map fun cc => Msg.cc s.idev 0 (cc + 8) 3

/-- setup_cc_led_rings (lines 92-94). -/
def setup_cc_led_rings (s : State) : List Msg :=
  ccknobs_ccnum.map fun cc => Msg.cc s.idev 0 (cc + 8) 2

/-- init (lines 96-101): midimix_bank := 0, then light_off, sysex,
pan rings, cc rings. -/
def init (s : State) : State × List Msg :=
  let s2 := { s with midimix_bank := 0 }
  (s2, light_off s2 ++ setup_sysex s2 ++ setup_pan_led_rings s2 ++ setup_cc_led_rings s2)

/-- end (lines 103-104): light_off only; the driver state, in particular
midimix_bank, is not touched. -/
def endDriver (s : State) : State × List Msg :=
  (s, light_off s)

/-! ## refresh (lines 112-154)

The Python local panPosition is assigned only in the in-range branch of the
strip loop; referencing it while still unassigned raises UnboundLocalError.
It is modelled as an `Option Int` threaded through the loop, starting at
`none`; sending the pan ControlChange with `none` is the exception, recorded
as `ok := false` with the messages already sent kept. -/

/-- Result of one iteration of the strip loop of refresh. -/
structure StripOut where
  msgs : List Msg
  pan : Option Int
  ok : Bool
deriving Repr

/-- One iteration of the strip loop of refresh (lines 130-154) for physical
channel i, given index0 and the current value of the panPosition local. -/
def refreshStrip (s : State) (index0 : Nat) (panPrev : Option Int) (i : Nat) :
    StripOut :=
  let index := index0 + i
  let muteV : Int := if index < s.zctrls_len then (if s.mute index then 1 else 0) else 0
  let soloV : Int := if index < s.zctrls_len then (if s.solo index then 1 else 0) else 0
  let pan : Option Int :=
    if index < s.zctrls_len then
      some (convert_range (s.balance index) (-1) 1 0 127)
    else panPrev
  let recV : Int :=
    if s.rec_mode = 0 then
      -- index < len(layers) and curlayer and layers[index] == curlayer
      if index < s.layers.length ∧ s.curlayer.isSome ∧ s.layers.get? index = s.curlayer
      then 1 else 0
    else
      -- index < len(layers) - 1 (over Python ints, i.e. index + 1 < length)
      if index + 1 < s.layers.length then
        -- the guard makes the default of getD unreachable
        if s.armed ((s.layers.getD index ⟨0, 0⟩).midi_chan) then 1 else 0
      else 0
  let base := [Msg.noteOn s.idev index mute_note muteV,
               Msg.noteOn s.idev index solo_note soloV,
               Msg.noteOn s.idev index rec_note recV]
  match pan with
  | some p =>
      -- panknobs_ccnum[index % 8]; index % 8 < 8 = length, so getD is exact
      ⟨base ++ [Msg.cc s.idev 0 (panknobs_ccnum.getD (index % 8) 0) p], some p, true⟩
  | none =>
      -- line 154 raises UnboundLocalError: panPosition referenced before
      -- assignment; the three NoteOn sends above already happened
      ⟨base, none, false⟩

/-- refresh (lines 112-154).  Returns the messages sent and whether the call
completed without raising. -/
def refresh (s : State) : List Msg × Bool :=
  let panMsgs := if s.pan_selected then [Msg.noteOn s.idev 0 pan_button 1] else []
  let index0 : Nat := if s.midimix_bank ≠ 0 then 8 else 0
  let bankMsgs :=
    if s.midimix_bank ≠ 0 then
      [Msg.noteOn s.idev 0 bank_left_note 0, Msg.noteOn s.idev 0 bank_right_note 1]
    else
      [Msg.noteOn s.idev 0 bank_left_note 1, Msg.noteOn s.idev 0 bank_right_note 0]
  let acc := (List.range 8).foldl
    (fun (acc : StripOut) i =>
      if acc.ok then
        let so := refreshStrip s index0 acc.pan i
        ⟨acc.msgs ++ so.msgs, so.pan, so.ok⟩
      else acc)
    ⟨panMsgs ++ bankMsgs, none, true⟩
  (acc.msgs, acc.ok)

/-! ## midi_event (lines 164-248) -/

/-- Outcome of midi_event.  Python returns True from consumed branches and
falls off the end (None, falsy) otherwise: res records True as `true` and the
implicit None as `false`.  `ok := false` records an uncaught exception (the
call never returns); msgs are the messages sent before that point. -/
structure MEOut where
  res : Bool
  st : State
  msgs : List Msg
  ok : Bool

/-- The NoteOn arm of midi_event (lines 169-228), taking the already decoded
channel and note. -/
def handle_note_on (s : State) (channel note : Nat) : MEOut :=
  if note = bank_left_note then
      let s2 := { s with midimix_bank := 0 }
      let r := refresh s2
      -- return True is reached only if the refresh call did not raise
      ⟨r.2, s2, r.1, r.2⟩
    else if note = bank_right_note then
      let s2 := { s with midimix_bank := 1 }
      let r := refresh s2
      ⟨r.2, s2, r.1, r.2⟩
    else if note = mute_note then
      let index := channel + (if s.midimix_bank ≠ 0 then 8 else 0)
      let val2 : Int := if s.mute index then 0 else 1
      let s2 := { s with mute := fun j => if j = index then decide (val2 ≠ 0) else s.mute j }
      ⟨true, s2, [Msg.noteOn s.idev channel note val2], true⟩
    else if note = solo_note then
      let index := channel + (if s.midimix_bank ≠ 0 then 8 else 0)
      let val2 : Int := if s.solo index then 0 else 1
      let s2 := { s with
        solo := fun j => if j = index then decide (val2 ≠ 0) else s.solo j,
        pendingMainSolo := true }
      ⟨true, s2, [Msg.noteOn s.idev channel note val2], true⟩
    else if note = rec_note then
      let index := channel + (if s.midimix_bank ≠ 0 then 8 else 0)
      -- index < len(zynmixer.zctrls) - 1 (over Python ints)
      if index + 1 < s.zctrls_len then
        if s.rec_mode = 0 then
          ⟨true, { s with selected := some index }, [], true⟩
        else
          match s.layers.get? index with
          | none =>
              -- get_root_layers()[index] raises IndexError
              ⟨false, s, [], false⟩
          | some layer =>
              let s2 := { s with
                armed := fun mc => if mc = layer.midi_chan then !s.armed mc else s.armed mc }
              let val2 : Int := if s2.armed layer.midi_chan then 1 else 0
              ⟨true, s2, [Msg.noteOn s.idev channel note val2], true⟩
      else
        -- return True sits outside the bounds check
        ⟨true, s, [], true⟩
    -- launch pad press: note truthy and 0 <= channel <= 7 (channel is a Nat)
    else if note ≠ 0 ∧ channel ≤ 7 then
      let x := channel
      let y : Int := (note : Int) - (PAD_NOTE_MIN : Int)
      if y < (PAD_HEIGHT : Int) ∧ y > -1 then
        let pad := s.getPadFromXY x y
        if 0 ≤ pad then
          ⟨true, { s with
            playing := fun b p =>
              if b = s.zynpadBank ∧ p = pad then !s.playing b p else s.playing b p },
            [], true⟩
        else ⟨true, s, [], true⟩
      else ⟨false, s, [], true⟩
    else ⟨false, s, [], true⟩

/-- The ControlChange arm of midi_event (lines 229-248), taking the already
decoded channel, cc number and cc value. -/
def handle_cc (s : State) (channel ccnum : Nat) (ccval : Nat) : MEOut :=
  if channel = master_chnum ∧ ccnum = master_ccnum then
      ⟨true, { s with main_level := (ccval : ℚ) / 127 }, [], true⟩
    else if ccnum = fader_ccnum then
      let index := channel + (if s.midimix_bank ≠ 0 then 8 else 0)
      ⟨true, { s with level := fun j => if j = index then (ccval : ℚ) / 127 else s.level j },
        [], true⟩
    else if ccnum ∈ panknobs_ccnum then
      let index := panknobs_ccnum.indexOf ccnum + (if s.midimix_bank ≠ 0 then 8 else 0)
      ⟨true, { s with
        balance := fun j => if j = index then 2 * (ccval : ℚ) / 127 - 1 else s.balance j },
        [], true⟩
    else
      -- pass through: echo the ControlChange, then fall off the end (None)
      ⟨false, s, [Msg.cc s.idev channel ccnum ccval], true⟩

/-- midi_event (lines 164-248).  The idev extracted at line 166 and the val
extracted at line 171 are dead locals on every path that does not overwrite
them, so they are not bound here. -/
def midi_event (s : State) (ev : Nat) : MEOut :=
  if decode_evtype ev = 0x9 then
    handle_note_on s (decode_channel ev) (decode_note ev)
  else if decode_evtype ev = 0xB then
    handle_cc s (decode_channel ev) (decode_ccnum ev) (decode_val ev)
  else ⟨false, s, [], true⟩

/-! ## update_pad (lines 261-290)

The play-state constants SEQ_STOPPED, SEQ_PLAYING, SEQ_STOPPING and
SEQ_STARTING come from the external zynseq module, so the play state is
modelled as an abstract enumeration with one case per recognised constant
plus a catch-all for every other value. -/

inductive SeqState where
  | stopped
  | seqPlaying
  | stopping
  | starting
  | other
deriving DecidableEq, Repr

/-- update_pad (lines 261-290).  Returns (result, messages): result is
some false for the out-of-bounds early return and none (Python falls off the
end) otherwise.  The getGroup call at line 270 feeds only a debug log. -/
def update_pad (s : State) (pad : Nat) (state : SeqState) (mode : Nat) :
    Option Bool × List Msg :=
  let cr := s.getXYFromPad pad
  if PAD_WIDTH ≤ cr.1 ∨ PAD_HEIGHT ≤ cr.2 then
    (some false, [])
  else
    let channel := cr.1
    let note := PAD_NOTE_MIN + cr.2
    let velocity : Int :=
      if mode = 0 then COLOUR_RED
      else
        match state with
        | .stopped => COLOUR_RED
        | .seqPlaying => COLOUR_GREEN
        | .stopping => COLOUR_ORANGE
        | .starting => COLOUR_GREEN_BLINK
        | .other => COLOUR_RED
    (none, [Msg.noteOn s.idev channel note velocity])

/-! ## Bank/index translator

The driver inlines the translation: midi_event computes
index = channel; if midimix_bank: index += 8 (lines 181-183 and the
analogous fader/pan/rec/solo sites), and refresh recovers the physical
column as index % 8 at line 154. -/

/-- toLogical, the inlined index computation of midi_event. -/
def toLogical (physicalChannel : Nat) (bank : Bool) : Nat :=
  physicalChannel + (if bank then 8 else 0)

/-- toPhysical, the inlined index % 8 of refresh line 154. -/
def toPhysical (logicalIndex : Nat) : Nat :=
  logicalIndex % 8

/-! ## Concrete collaborator states for witnesses and counterexamples -/

/-- A small concrete state: 8 live strips, bank 0, nothing muted or soloed,
four root layers, no current layer. -/
def testState : State where
  idev := 1
  midimix_bank := 0
  rec_mode := 0
  pan_selected := true
  mute := fun _ => false
  solo := fun _ => false
  level := fun _ => 0
  balance := fun _ => 0
  zctrls_len := 8
  layers := [⟨10, 0⟩, ⟨11, 1⟩, ⟨12, 2⟩, ⟨13, 3⟩]
  curlayer := none
  armed := fun _ => false
  selected := none
  pendingMainSolo := false
  main_level := 0
  zynpadBank := 0
  getPadFromXY := fun x y => (x : Int) + 8 * y
  playing := fun _ _ => false
  getXYFromPad := fun p => (p % 8, p / 8)

/-- testState with the right bank selected: every translated index is 8-15,
beyond the 8 live strips. -/
def bankedState : State :=
  { testState with midimix_bank := 1 }

/-! # Theorems -/

/-- Extracting a shifted mask picks out a bit range: masking with
(2 ^ m - 1) <<< k and shifting right by k yields n / 2 ^ k % 2 ^ m. -/
theorem and_shifted_mask (n k m : Nat) :
    (n &&& ((2 ^ m - 1) <<< k)) >>> k = n / 2 ^ k % 2 ^ m := by
  have h : n / 2 ^ k % 2 ^ m = (n >>> k) &&& (2 ^ m - 1) := by
    rw [Nat.and_pow_two_sub_one_eq_mod, Nat.shiftRight_eq_div_pow]
  rw [h]
  apply Nat.eq_of_testBit_eq
  intro i
  simp only [Nat.testBit_shiftRight, Nat.testBit_and, Nat.testBit_shiftLeft,
    Nat.testBit_two_pow_sub_one, ge_iff_le, Nat.le_add_right, decide_True,
    Bool.true_and, Nat.add_sub_cancel_left]

/-- Masking with a low mask 2 ^ m - 1 is reduction mod 2 ^ m. -/
theorem and_low_mask (n m : Nat) : n &&& (2 ^ m - 1) = n % 2 ^ m :=
  Nat.and_pow_two_sub_one_eq_mod n m

/-- decode_evtype picks bits 23-20. -/
theorem decode_evtype_eq (ev : Nat) : decode_evtype ev = ev / 2 ^ 20 % 2 ^ 4 :=
  and_shifted_mask ev 20 4

/-- decode_idev picks bits 31-24. -/
theorem decode_idev_eq (ev : Nat) : decode_idev ev = ev / 2 ^ 24 % 2 ^ 8 :=
  and_shifted_mask ev 24 8

/-- decode_ccnum picks bits 15-8, masked to 7 bits. -/
theorem decode_ccnum_eq (ev : Nat) : decode_ccnum ev = ev / 2 ^ 8 % 2 ^ 7 :=
  and_shifted_mask ev 8 7

/-- decode_val picks bits 7-0, masked to 7 bits. -/
theorem decode_val_eq (ev : Nat) : decode_val ev = ev % 2 ^ 7 :=
  and_low_mask ev 7

/-- decode_note picks bits 15-8, masked to 7 bits. -/
theorem decode_note_eq (ev : Nat) : decode_note ev = ev / 2 ^ 8 % 2 ^ 7 := by
  show (ev >>> 8) &&& (2 ^ 7 - 1) = ev / 2 ^ 8 % 2 ^ 7
  rw [and_low_mask, Nat.shiftRight_eq_div_pow]

/-- decode_channel picks bits 19-16. -/
theorem decode_channel_eq (ev : Nat) : decode_channel ev = ev / 2 ^ 16 % 2 ^ 4 := by
  show ((ev >>> 16) &&& (2 ^ 8 - 1)) &&& (2 ^ 4 - 1) = ev / 2 ^ 16 % 2 ^ 4
  rw [and_low_mask, and_low_mask, Nat.shiftRight_eq_div_pow, Nat.mod_mod_of_dvd]
  decide

/-- Decoding a packed word recovers its fields. -/
theorem decode_mkWord (dv t ch num v : Nat) (ht : t < 16) (hch : ch < 16)
    (hnum : num < 128) (hv : v < 128) :
    decode_idev (mkWord dv t ch num v) = dv % 256 ∧
    decode_evtype (mkWord dv t ch num v) = t ∧
    decode_channel (mkWord dv t ch num v) = ch ∧
    decode_note (mkWord dv t ch num v) = num ∧
    decode_val (mkWord dv t ch num v) = v ∧
    decode_ccnum (mkWord dv t ch num v) = num := by
  unfold mkWord
  rw [decode_idev_eq, decode_evtype_eq, decode_channel_eq, decode_note_eq,
    decode_val_eq, decode_ccnum_eq]
  norm_num
  omega

/-- C5: for every 32-bit event word, decoding extracts deviceIndex from bits
31-24, the event type from bits 23-20, the channel from bits 19-16, the
number from bits 15-8 masked to 7 bits and the value from bits 7-0 masked to
7 bits; decoding is total by construction, a word whose type nibble is
neither 0x9 nor 0xB is reported not consumed, and the word built from
(deviceIndex 2, type 0x9, channel 5, number 60, value 100) decodes to a
NoteOn with channel 5, number 60, value 100. -/
theorem C5_decode_total (ev : Nat) (s : State) (h32 : ev < 2 ^ 32) :
    decode_idev ev = ev / 2 ^ 24 ∧
    decode_evtype ev = ev / 2 ^ 20 % 2 ^ 4 ∧
    decode_channel ev = ev / 2 ^ 16 % 2 ^ 4 ∧
    decode_note ev = ev / 2 ^ 8 % 2 ^ 7 ∧
    decode_val ev = ev % 2 ^ 7 ∧
    decode_ccnum ev = ev / 2 ^ 8 % 2 ^ 7 ∧
    (decode_evtype ev ≠ 0x9 → decode_evtype ev ≠ 0xB →
      (midi_event s ev).res = false ∧ (midi_event s ev).st = s) ∧
    decode_idev (mkWord 2 9 5 60 100) = 2 ∧
    decode_evtype (mkWord 2 9 5 60 100) = 9 ∧
    decode_channel (mkWord 2 9 5 60 100) = 5 ∧
    decode_note (mkWord 2 9 5 60 100) = 60 ∧
    decode_val (mkWord 2 9 5 60 100) = 100 := by
  refine ⟨?_, decode_evtype_eq ev, decode_channel_eq ev, decode_note_eq ev,
    decode_val_eq ev, decode_ccnum_eq ev, ?_, by decide, by decide, by decide,
    by decide, by decide⟩
  · rw [decode_idev_eq]
    have h : ev / 2 ^ 24 < 2 ^ 8 := by
      apply Nat.div_lt_of_lt_mul
      calc ev < 2 ^ 32 := h32
        _ = 2 ^ 24 * 2 ^ 8 := by norm_num
    exact Nat.mod_eq_of_lt h
  · intro h9 hB
    simp only [midi_event]
    rw [if_neg h9, if_neg hB]
    exact ⟨rfl, rfl⟩

/-- Witness for C5_decode_total at the concrete word 0x02956456. -/
theorem C5_decode_total_witness :
    mkWord 2 9 5 100 86 < 2 ^ 32 ∧
    (decode_idev (mkWord 2 9 5 100 86) = mkWord 2 9 5 100 86 / 2 ^ 24 ∧
     decode_evtype (mkWord 2 9 5 100 86) = mkWord 2 9 5 100 86 / 2 ^ 20 % 2 ^ 4 ∧
     decode_channel (mkWord 2 9 5 100 86) = mkWord 2 9 5 100 86 / 2 ^ 16 % 2 ^ 4 ∧
     decode_note (mkWord 2 9 5 100 86) = mkWord 2 9 5 100 86 / 2 ^ 8 % 2 ^ 7 ∧
     decode_val (mkWord 2 9 5 100 86) = mkWord 2 9 5 100 86 % 2 ^ 7 ∧
     decode_ccnum (mkWord 2 9 5 100 86) = mkWord 2 9 5 100 86 / 2 ^ 8 % 2 ^ 7 ∧
     (decode_evtype (mkWord 2 9 5 100 86) ≠ 0x9 →
      decode_evtype (mkWord 2 9 5 100 86) ≠ 0xB →
      (midi_event testState (mkWord 2 9 5 100 86)).res = false ∧
      (midi_event testState (mkWord 2 9 5 100 86)).st = testState) ∧
     decode_idev (mkWord 2 9 5 60 100) = 2 ∧
     decode_evtype (mkWord 2 9 5 60 100) = 9 ∧
     decode_channel (mkWord 2 9 5 60 100) = 5 ∧
     decode_note (mkWord 2 9 5 60 100) = 60 ∧
     decode_val (mkWord 2 9 5 60 100) = 100) :=
  ⟨by decide, C5_decode_total (mkWord 2 9 5 100 86) testState (by decide)⟩

/-- C7: for every physical channel 0-7 and bank flag, translating to the
logical strip index and back with the inlined translator recovers the
physical channel, and the logical index lands in the upper bank exactly when
the bank flag is set. -/
theorem C7_translator_roundtrip (p : Nat) (hp : p < 8) (b : Bool) :
    toPhysical (toLogical p b) = p ∧ (8 ≤ toLogical p b ↔ b = true) := by
  cases b <;> simp [toLogical, toPhysical] <;> omega

/-- Witness for C7_translator_roundtrip at physical channel 3, bank 1. -/
theorem C7_translator_roundtrip_witness :
    3 < 8 ∧ (toPhysical (toLogical 3 true) = 3 ∧ (8 ≤ toLogical 3 true ↔ true = true)) :=
  ⟨by decide, C7_translator_roundtrip 3 (by decide) true⟩

/-- Truncation toward zero of an integer is that integer. -/
theorem truncToZero_intCast (v : ℤ) : truncToZero (v : ℚ) = v := by
  unfold truncToZero
  split <;> simp

/-- C8: convert_range linearly rescales its input from the old to the new
range truncating toward zero; on the identity range 0-127 it fixes every
integer 0-127, and convert_range(0, -1, 1, 0, 127) = 63. -/
theorem C8_convert_range (v : ℤ) (_h0 : 0 ≤ v) (_h127 : v ≤ 127) :
    convert_range (v : ℚ) 0 127 0 127 = v ∧
    convert_range 0 (-1) 1 0 127 = 63 ∧
    ∀ value oldMin oldMax newMin newMax : ℚ, oldMax ≠ oldMin →
      convert_range value oldMin oldMax newMin newMax =
        truncToZero ((value - oldMin) / (oldMax - oldMin) * (newMax - newMin) + newMin) := by
  refine ⟨?_, by unfold convert_range truncToZero; norm_num, ?_⟩
  · have h : ((v : ℚ) - 0) * (127 - 0) / (127 - 0) + 0 = (v : ℚ) := by
      field_simp
    unfold convert_range
    rw [h, truncToZero_intCast]
  · intro value oldMin oldMax newMin newMax hne
    unfold convert_range
    congr 1
    rw [div_mul_eq_mul_div]

theorem handle_note_on_consumed (s : State) (ch note : Nat) :
    (handle_note_on s ch note).ok = true →
    (handle_note_on s ch note).res = true ∨ (handle_note_on s ch note).st = s := by
  simp only [handle_note_on]
  by_cases h1 : note = bank_left_note
  · rw [if_pos h1]
    intro hok
    left
    exact hok
  · rw [if_neg h1]
    by_cases h2 : note = bank_right_note
    · rw [if_pos h2]
      intro hok
      left
      exact hok
    · rw [if_neg h2]
      by_cases h3 : note = mute_note
      · rw [if_pos h3]
        intro _
        left
        rfl
      · rw [if_neg h3]
        by_cases h4 : note = solo_note
        · rw [if_pos h4]
          intro _
          left
          rfl
        · rw [if_neg h4]
          by_cases h5 : note = rec_note
          · rw [if_pos h5]
            by_cases h6 : ch + (if s.midimix_bank ≠ 0 then 8 else 0) + 1 < s.zctrls_len
            · rw [if_pos h6]
              by_cases h7 : s.rec_mode = 0
              · rw [if_pos h7]
                intro _
                left
                rfl
              · rw [if_neg h7]
                rcases hget : s.layers.get? (ch + (if s.midimix_bank ≠ 0 then 8 else 0))
                  with _ | layer <;> intro hok
                · simp only at hok
                  exact absurd hok (by simp)
                · left
                  rfl
            · rw [if_neg h6]
              intro _
              left
              rfl
          · rw [if_neg h5]
            split_ifs <;> intro _ <;> first | (left; rfl) | (right; rfl)

theorem handle_cc_consumed (s : State) (ch ccnum ccval : Nat) :
    (handle_cc s ch ccnum ccval).ok = true →
    (handle_cc s ch ccnum ccval).res = true ∨ (handle_cc s ch ccnum ccval).st = s := by
  simp only [handle_cc]
  split_ifs <;> intro _ <;> first | (left; rfl) | (right; rfl)

/-- C10: whenever midi_event returns (did not raise) with a result other
than True, the whole driver and collaborator state, in particular the bank
selector and the mixer, sequencer, selection and recorder stores, is exactly
the input state. -/
theorem C10_not_consumed_unchanged (s : State) (ev : Nat)
    (hok : (midi_event s ev).ok = true) :
    (midi_event s ev).res = true ∨ (midi_event s ev).st = s := by
  by_cases h9 : decode_evtype ev = 0x9
  · simp only [midi_event, if_pos h9] at hok ⊢
    exact handle_note_on_consumed s (decode_channel ev) (decode_note ev) hok
  · by_cases hB : decode_evtype ev = 0xB
    · simp only [midi_event, if_neg h9, if_pos hB] at hok ⊢
      exact handle_cc_consumed s (decode_channel ev) (decode_ccnum ev)
        (decode_val ev) hok
    · simp only [midi_event, if_neg h9, if_neg hB]
      right
      trivial

/-- Witness for C10_not_consumed_unchanged at event word 0 (type nibble 0,
not consumed, state unchanged). -/
theorem C10_not_consumed_unchanged_witness :
    (midi_event testState 0).ok = true ∧
    ((midi_event testState 0).res = true ∨ (midi_event testState 0).st = testState) :=
  ⟨rfl, C10_not_consumed_unchanged testState 0 rfl⟩

/-- Witness for C8_convert_range at value 5. -/
theorem C8_convert_range_witness :
    (0 : ℤ) ≤ 5 ∧ (5 : ℤ) ≤ 127 ∧
    (convert_range ((5 : ℤ) : ℚ) 0 127 0 127 = 5 ∧
     convert_range 0 (-1) 1 0 127 = 63 ∧
     ∀ value oldMin oldMax newMin newMax : ℚ, oldMax ≠ oldMin →
       convert_range value oldMin oldMax newMin newMax =
         truncToZero ((value - oldMin) / (oldMax - oldMin) * (newMax - newMin) + newMin)) :=
  ⟨by decide, by decide, C8_convert_range 5 (by decide) (by decide)⟩

/-- C9: the strip block that refresh emits for physical channel i (0-7)
consists of the mute, solo and rec NoteOn feedback, all carried on MIDI
channel i + 8 * BankState (so channels 8-15 when the bank flag is 1),
followed, whenever a pan ControlChange occurs in the block, by that
ControlChange on channel 0 with the pan-knob cc number indexed by i; for an
in-range strip the pan ControlChange is always present. -/
theorem C9_strip_channels (s : State) (panPrev : Option Int) (i : Nat)
    (hi : i < 8) (hb : s.midimix_bank ≤ 1) :
    ∃ mv sv rv panTail,
      (refreshStrip s (if s.midimix_bank ≠ 0 then 8 else 0) panPrev i).msgs =
        [Msg.noteOn s.idev (i + 8 * s.midimix_bank) mute_note mv,
         Msg.noteOn s.idev (i + 8 * s.midimix_bank) solo_note sv,
         Msg.noteOn s.idev (i + 8 * s.midimix_bank) rec_note rv] ++ panTail ∧
      (∀ m ∈ panTail, ∃ p, m = Msg.cc s.idev 0 (panknobs_ccnum.getD i 0) p) ∧
      (i + 8 * s.midimix_bank < s.zctrls_len → panTail ≠ []) := by
  have hbank : (if s.midimix_bank ≠ 0 then 8 else 0) = 8 * s.midimix_bank := by
    rcases Nat.le_one_iff_eq_zero_or_eq_one.mp hb with h | h <;> simp [h]
  rw [hbank]
  have hcomm : 8 * s.midimix_bank + i = i + 8 * s.midimix_bank := Nat.add_comm _ _
  simp only [refreshStrip, hcomm]
  have hmod : (i + 8 * s.midimix_bank) % 8 = i := by
    rcases Nat.le_one_iff_eq_zero_or_eq_one.mp hb with h | h <;> rw [h] <;> omega
  rw [hmod]
  by_cases hin : i + 8 * s.midimix_bank < s.zctrls_len
  · simp only [if_pos hin]
    refine ⟨_, _, _, _, rfl, ?_, ?_⟩
    · intro m hm
      rw [List.mem_singleton] at hm
      exact ⟨_, hm⟩
    · intro _
      simp
  · simp only [if_neg hin]
    rcases panPrev with _ | p
    · refine ⟨_, _, _, [], by rw [List.append_nil], by simp, fun h => absurd h hin⟩
    · refine ⟨_, _, _, [Msg.cc s.idev 0 (panknobs_ccnum.getD i 0) p], rfl, ?_,
        fun h => absurd h hin⟩
      intro m hm
      rw [List.mem_singleton] at hm
      exact ⟨_, hm⟩

/-- Witness for C9_strip_channels in bankedState at physical channel 2. -/
theorem C9_strip_channels_witness :
    2 < 8 ∧ bankedState.midimix_bank ≤ 1 ∧
    (∃ mv sv rv panTail,
      (refreshStrip bankedState (if bankedState.midimix_bank ≠ 0 then 8 else 0)
          none 2).msgs =
        [Msg.noteOn bankedState.idev (2 + 8 * bankedState.midimix_bank) mute_note mv,
         Msg.noteOn bankedState.idev (2 + 8 * bankedState.midimix_bank) solo_note sv,
         Msg.noteOn bankedState.idev (2 + 8 * bankedState.midimix_bank) rec_note rv] ++ panTail ∧
      (∀ m ∈ panTail, ∃ p, m = Msg.cc bankedState.idev 0 (panknobs_ccnum.getD 2 0) p) ∧
      (2 + 8 * bankedState.midimix_bank < bankedState.zctrls_len → panTail ≠ [])) :=
  ⟨by decide, by decide, C9_strip_channels bankedState none 2 (by decide) (by decide)⟩

/-- C2 evaluated on the code at the failing input: with bank 1 and 8 live
strips every translated index 8-15 is out of range, and for physical channel
0 (logical index 8) refresh does emit mute=0 and solo=0 as claimed, but it
also emits a rec NoteOn, and instead of skipping the pan ControlChange it
aborts with UnboundLocalError (panPosition referenced before assignment),
recorded as ok = false. -/
theorem C2_out_of_range_emissions :
    bankedState.zctrls_len = 8 ∧
    bankedState.midimix_bank = 1 ∧
    Msg.noteOn 1 8 mute_note 0 ∈ (refresh bankedState).1 ∧
    Msg.noteOn 1 8 solo_note 0 ∈ (refresh bankedState).1 ∧
    Msg.noteOn 1 8 rec_note 0 ∈ (refresh bankedState).1 ∧
    (refresh bankedState).2 = false := by
  decide

/-- C3 evaluated on the code at the failing input: refresh raises
(ok = false) when the bank flag is 1 and only 8 strips are live, because the
pan ControlChange of the first out-of-range strip reads the never-assigned
panPosition local. -/
theorem C3_refresh_raises :
    bankedState.midimix_bank = 1 ∧
    bankedState.zctrls_len = 8 ∧
    (refresh bankedState).2 = false := by
  decide

/-- C1 counterexample: the claim that every bank-translated mutating event is
bounds-checked fails on the mute handler.  In bankedState there are 8 live
strips and the bank flag is 1, so a mute NoteOn on channel 3 translates to
the out-of-range logical index 11; the claim requires the event to be
skipped with no mutation and no feedback, but the handler mutates the mute
map at index 11 and emits an echo NoteOn. -/
theorem C1_counterexample :
    bankedState.zctrls_len = 8 ∧
    bankedState.midimix_bank = 1 ∧
    bankedState.mute 11 = false ∧
    (midi_event bankedState (mkWord 0 9 3 50 100)).st.mute 11 = true ∧
    (midi_event bankedState (mkWord 0 9 3 50 100)).msgs = [Msg.noteOn 1 3 50 1] ∧
    (midi_event bankedState (mkWord 0 9 3 50 100)).res = true := by
  refine ⟨rfl, rfl, rfl, ?_, rfl, rfl⟩
  decide

/-- C1 amended: only the rec-note handler bounds-checks its translated index
(against the strip count minus one, consuming the event with no mutation and
no feedback when the check fails); the mute, solo, fader and pan handlers
mutate the mixer at the translated index whatever the strip count, and the
mute and solo handlers emit echo feedback regardless of the strip count. -/
theorem C1_amended_bounds (s : State) (ev : Nat) :
    (decode_evtype ev = 0x9 → decode_note ev = rec_note →
      s.zctrls_len ≤ decode_channel ev + (if s.midimix_bank ≠ 0 then 8 else 0) + 1 →
      (midi_event s ev).st = s ∧ (midi_event s ev).msgs = [] ∧
      (midi_event s ev).res = true) ∧
    (decode_evtype ev = 0x9 → decode_note ev = mute_note →
      (midi_event s ev).st.mute (decode_channel ev + (if s.midimix_bank ≠ 0 then 8 else 0))
        = !s.mute (decode_channel ev + (if s.midimix_bank ≠ 0 then 8 else 0)) ∧
      (midi_event s ev).msgs ≠ []) ∧
    (decode_evtype ev = 0x9 → decode_note ev = solo_note →
      (midi_event s ev).st.solo (decode_channel ev + (if s.midimix_bank ≠ 0 then 8 else 0))
        = !s.solo (decode_channel ev + (if s.midimix_bank ≠ 0 then 8 else 0)) ∧
      (midi_event s ev).msgs ≠ []) ∧
    (decode_evtype ev = 0xB → decode_ccnum ev = fader_ccnum →
      (midi_event s ev).st.level (decode_channel ev + (if s.midimix_bank ≠ 0 then 8 else 0))
        = (decode_val ev : ℚ) / 127) ∧
    (decode_evtype ev = 0xB → decode_ccnum ev ∈ panknobs_ccnum →
      (midi_event s ev).st.balance
          (panknobs_ccnum.indexOf (decode_ccnum ev)
            + (if s.midimix_bank ≠ 0 then 8 else 0))
        = 2 * (decode_val ev : ℚ) / 127 - 1) := by
  refine ⟨?_, ?_, ?_, ?_, ?_⟩
  · intro h9 hnote hout
    have h1 : decode_note ev ≠ bank_left_note := by
      rw [hnote]; decide
    have h2 : decode_note ev ≠ bank_right_note := by
      rw [hnote]; decide
    have h3 : decode_note ev ≠ mute_note := by
      rw [hnote]; decide
    have h4 : decode_note ev ≠ solo_note := by
      rw [hnote]; decide
    have h5 : ¬ (decode_channel ev + (if s.midimix_bank ≠ 0 then 8 else 0) + 1
        < s.zctrls_len) := by omega
    simp only [midi_event, handle_note_on]
    rw [if_pos h9, if_neg h1, if_neg h2, if_neg h3, if_neg h4, if_pos hnote,
      if_neg h5]
    exact ⟨rfl, rfl, rfl⟩
  · intro h9 hnote
    have h1 : decode_note ev ≠ bank_left_note := by
      rw [hnote]; decide
    have h2 : decode_note ev ≠ bank_right_note := by
      rw [hnote]; decide
    simp only [midi_event, handle_note_on]
    rw [if_pos h9, if_neg h1, if_neg h2, if_pos hnote]
    constructor
    · simp only [if_pos rfl]
      cases h : s.mute (decode_channel ev + (if s.midimix_bank ≠ 0 then 8 else 0)) <;>
        simp [h]
    · simp
  · intro h9 hnote
    have h1 : decode_note ev ≠ bank_left_note := by
      rw [hnote]; decide
    have h2 : decode_note ev ≠ bank_right_note := by
      rw [hnote]; decide
    have h3 : decode_note ev ≠ mute_note := by
      rw [hnote]; decide
    simp only [midi_event, handle_note_on]
    rw [if_pos h9, if_neg h1, if_neg h2, if_neg h3, if_pos hnote]
    constructor
    · simp only [if_pos rfl]
      cases h : s.solo (decode_channel ev + (if s.midimix_bank ≠ 0 then 8 else 0)) <;>
        simp [h]
    · simp
  · intro hB hcc
    have h9 : ¬ decode_evtype ev = 0x9 := by omega
    have hmaster : ¬ (decode_channel ev = master_chnum ∧
        decode_ccnum ev = master_ccnum) := by
      rintro ⟨-, h⟩
      rw [hcc] at h
      exact absurd h (by decide)
    simp only [midi_event, handle_cc]
    rw [if_neg h9, if_pos hB, if_neg hmaster, if_pos hcc]
    simp
  · intro hB hmem
    have h9 : ¬ decode_evtype ev = 0x9 := by omega
    have hmaster : ¬ (decode_channel ev = master_chnum ∧
        decode_ccnum ev = master_ccnum) := by
      rintro ⟨-, h⟩
      rw [h] at hmem
      exact absurd hmem (by decide)
    have hfad : ¬ decode_ccnum ev = fader_ccnum := by
      intro h
      rw [h] at hmem
      exact absurd hmem (by decide)
    simp only [midi_event, handle_cc]
    rw [if_neg h9, if_pos hB, if_neg hmaster, if_neg hfad, if_pos hmem]
    simp

/-- Witness for C1_amended_bounds: concrete rec, mute, solo, fader and pan
events in bankedState (bank 1, 8 live strips), each translating channel 3 to
the out-of-range logical index 11, with every premise of the corresponding
conjunct discharged. -/
theorem C1_amended_bounds_witness :
    (decode_evtype (mkWord 0 9 3 51 100) = 0x9 ∧
     decode_note (mkWord 0 9 3 51 100) = rec_note ∧
     bankedState.zctrls_len ≤ decode_channel (mkWord 0 9 3 51 100)
       + (if bankedState.midimix_bank ≠ 0 then 8 else 0) + 1 ∧
     (midi_event bankedState (mkWord 0 9 3 51 100)).st = bankedState ∧
     (midi_event bankedState (mkWord 0 9 3 51 100)).msgs = [] ∧
     (midi_event bankedState (mkWord 0 9 3 51 100)).res = true) ∧
    (decode_evtype (mkWord 0 9 3 50 100) = 0x9 ∧
     decode_note (mkWord 0 9 3 50 100) = mute_note ∧
     (midi_event bankedState (mkWord 0 9 3 50 100)).st.mute
         (decode_channel (mkWord 0 9 3 50 100)
           + (if bankedState.midimix_bank ≠ 0 then 8 else 0))
       = !bankedState.mute (decode_channel (mkWord 0 9 3 50 100)
           + (if bankedState.midimix_bank ≠ 0 then 8 else 0)) ∧
     (midi_event bankedState (mkWord 0 9 3 50 100)).msgs ≠ []) ∧
    (decode_evtype (mkWord 0 9 3 49 100) = 0x9 ∧
     decode_note (mkWord 0 9 3 49 100) = solo_note ∧
     (midi_event bankedState (mkWord 0 9 3 49 100)).st.solo
         (decode_channel (mkWord 0 9 3 49 100)
           + (if bankedState.midimix_bank ≠ 0 then 8 else 0))
       = !bankedState.solo (decode_channel (mkWord 0 9 3 49 100)
           + (if bankedState.midimix_bank ≠ 0 then 8 else 0)) ∧
     (midi_event bankedState (mkWord 0 9 3 49 100)).msgs ≠ []) ∧
    (decode_evtype (mkWord 0 11 3 7 100) = 0xB ∧
     decode_ccnum (mkWord 0 11 3 7 100) = fader_ccnum ∧
     (midi_event bankedState (mkWord 0 11 3 7 100)).st.level
         (decode_channel (mkWord 0 11 3 7 100)
           + (if bankedState.midimix_bank ≠ 0 then 8 else 0))
       = (decode_val (mkWord 0 11 3 7 100) : ℚ) / 127) ∧
    (decode_evtype (mkWord 0 11 3 51 100) = 0xB ∧
     decode_ccnum (mkWord 0 11 3 51 100) ∈ panknobs_ccnum ∧
     (midi_event bankedState (mkWord 0 11 3 51 100)).st.balance
         (panknobs_ccnum.indexOf (decode_ccnum (mkWord 0 11 3 51 100))
           + (if bankedState.midimix_bank ≠ 0 then 8 else 0))
       = 2 * (decode_val (mkWord 0 11 3 51 100) : ℚ) / 127 - 1) :=
  ⟨⟨by decide, by decide, by decide,
    (C1_amended_bounds bankedState (mkWord 0 9 3 51 100)).1
      (by decide) (by decide) (by decide)⟩,
   ⟨by decide, by decide,
    (C1_amended_bounds bankedState (mkWord 0 9 3 50 100)).2.1
      (by decide) (by decide)⟩,
   ⟨by decide, by decide,
    (C1_amended_bounds bankedState (mkWord 0 9 3 49 100)).2.2.1
      (by decide) (by decide)⟩,
   ⟨by decide, by decide,
    (C1_amended_bounds bankedState (mkWord 0 11 3 7 100)).2.2.2.1
      (by decide) (by decide)⟩,
   ⟨by decide, by decide,
    (C1_amended_bounds bankedState (mkWord 0 11 3 51 100)).2.2.2.2
      (by decide) (by decide)⟩⟩

/-- C6: a NoteOn carrying the mute-note on channel 3 while the bank flag is
1 toggles the mute flag at logical index 11 to the complement of its previous
value, leaves the mute flags of all other strips unchanged, emits exactly one echo
NoteOn on channel 3 with the mute-note and the new mute state as velocity,
and is consumed. -/
theorem C6_mute_toggle (s : State) (hb : s.midimix_bank = 1) (v : Nat)
    (hv : v < 128) :
    (midi_event s (mkWord 0 9 3 mute_note v)).res = true ∧
    (midi_event s (mkWord 0 9 3 mute_note v)).ok = true ∧
    (midi_event s (mkWord 0 9 3 mute_note v)).st.mute 11 = !s.mute 11 ∧
    (∀ j, j ≠ 11 → (midi_event s (mkWord 0 9 3 mute_note v)).st.mute j = s.mute j) ∧
    (midi_event s (mkWord 0 9 3 mute_note v)).msgs =
      [Msg.noteOn s.idev 3 mute_note (if s.mute 11 then 0 else 1)] := by
  obtain ⟨hidev, ht, hch, hnum, hval, hcc⟩ :=
    decode_mkWord 0 9 3 mute_note v (by decide) (by decide) (by decide) hv
  simp only [midi_event, handle_note_on, ht, hch, hnum, hb]
  simp [mute_note, bank_left_note, bank_right_note]
  intro j hj hj2
  exact absurd hj2 hj

/-- Witness for C6_mute_toggle in bankedState with velocity 100. -/
theorem C6_mute_toggle_witness :
    bankedState.midimix_bank = 1 ∧ 100 < 128 ∧
    ((midi_event bankedState (mkWord 0 9 3 mute_note 100)).res = true ∧
     (midi_event bankedState (mkWord 0 9 3 mute_note 100)).ok = true ∧
     (midi_event bankedState (mkWord 0 9 3 mute_note 100)).st.mute 11
       = !bankedState.mute 11 ∧
     (∀ j, j ≠ 11 →
       (midi_event bankedState (mkWord 0 9 3 mute_note 100)).st.mute j
         = bankedState.mute j) ∧
     (midi_event bankedState (mkWord 0 9 3 mute_note 100)).msgs =
       [Msg.noteOn bankedState.idev 3 mute_note
         (if bankedState.mute 11 then 0 else 1)]) :=
  ⟨rfl, by decide, C6_mute_toggle bankedState rfl 100 (by decide)⟩

/-- C4 counterexample: end() does not reset the bank selector; deactivating
the device with bank 1 selected leaves midimix_bank at 1, not 0. -/
theorem C4_counterexample :
    bankedState.midimix_bank = 1 ∧
    (endDriver bankedState).1.midimix_bank = 1 := by
  exact ⟨rfl, rfl⟩

/-- C4 amended: midimix_bank is initialised to 0 by init, left unchanged by
end (which only clears LEDs), and mutated by midi_event exactly on the
bank-left (to 0) and bank-right (to 1) NoteOn events, so it is always 0 or 1
after activation. -/
theorem handle_note_on_bank (s : State) (ch note : Nat) :
    (handle_note_on s ch note).st.midimix_bank =
      (if note = bank_left_note then 0
       else if note = bank_right_note then 1
       else s.midimix_bank) := by
  simp only [handle_note_on]
  by_cases h1 : note = bank_left_note
  · rw [if_pos h1, if_pos h1]
  · rw [if_neg h1, if_neg h1]
    by_cases h2 : note = bank_right_note
    · rw [if_pos h2, if_pos h2]
    · rw [if_neg h2, if_neg h2]
      split_ifs <;> first | rfl | (split <;> rfl)

theorem handle_cc_bank (s : State) (ch ccnum ccval : Nat) :
    (handle_cc s ch ccnum ccval).st.midimix_bank = s.midimix_bank := by
  unfold handle_cc
  split_ifs <;> rfl

/-- C4 amended: midimix_bank is initialised to 0 by init, left unchanged by
end (which only clears LEDs), and mutated by midi_event exactly on the
bank-left (to 0) and bank-right (to 1) NoteOn events, so it is always 0 or 1
after activation. -/
theorem C4_amended_bank (s : State) (ev : Nat) :
    (init s).1.midimix_bank = 0 ∧
    (endDriver s).1.midimix_bank = s.midimix_bank ∧
    (midi_event s ev).st.midimix_bank =
      (if decode_evtype ev = 0x9 ∧ decode_note ev = bank_left_note then 0
       else if decode_evtype ev = 0x9 ∧ decode_note ev = bank_right_note then 1
       else s.midimix_bank) := by
  refine ⟨rfl, rfl, ?_⟩
  by_cases h9 : decode_evtype ev = 0x9
  · simp only [midi_event, if_pos h9, handle_note_on_bank, h9, true_and,
      if_true, ite_true]
  · by_cases hB : decode_evtype ev = 0xB
    · simp only [midi_event, if_neg h9, if_pos hB, handle_cc_bank, h9,
        false_and, if_false, ite_false]
    · simp only [midi_event, if_neg h9, if_neg hB, h9, false_and, if_false,
        ite_false]

end APC40
